import Mathlib

/-!
# Verification of the summary cache manager (`get_summary`, src/backend/main.py)

Shallow embedding of the `/api/summary` handler. The external collaborators
(Firestore review query, Firestore cache document read/write, OpenAI generation
call) are modelled as fields of an `Env` record: each fallible call is an
`Except String _` value, mirroring the fact that any of them may raise and be
caught by the handler's `except` block. Firestore documents are structures of
`Option` fields, mirroring Python `dict.get` (absent and stored-`None`
collapse to `none`, exactly as `dict.get` returns `None` for both). Firestore
timestamps are modelled as `Nat`; a real Firestore timestamp object is always
truthy in Python, so `if ts` in the source is `Option.isSome` here. Python
`str.strip()` is modelled by `pyStrip` (drop whitespace from both ends).

The function returns, alongside its result, an `Effects` log recording every
external interaction it performed: whether the review query ran, whether the
cache document was read, the exact prompts passed to the generation call, and
the Firestore writes (collection, document id, fields, merge flag).
-/

/-- A review document as deserialized from Firestore (`d.to_dict()`).
`text` and `created_at` are `Option` because either field may be missing or
stored as `null`; `(data.get("text") or "")` and `data.get("created_at")`
in the source read them. -/
structure ReviewDoc where
  text : Option String
  created_at : Option Nat
deriving DecidableEq

/-- The empty record: `d.to_dict() or {}` substitutes this when
deserialization yields `None`. -/
def emptyReview : ReviewDoc := ⟨none, none⟩

/-- A cached-summary document (`place_summaries/{place_id}`) as read back from
Firestore. Fields the handler reads are `Option` (absent or `null` collapse to
`none`, as with `dict.get`); `extra` stands for any unrelated fields the stored
document may carry, so that merge-vs-replace semantics is observable. -/
structure CacheDoc where
  place_id : Option String
  summary : Option String
  model : Option String
  updated_at : Option Nat
  source_review_count : Option Nat
  source_latest_review_at : Option Nat
  extra : List (String × String)
deriving DecidableEq

/-- One Firestore `set` call: target (collection, document id), the six fields
written by the handler, and the `merge` flag. -/
structure CacheWrite where
  collection : String
  docId : String
  place_id : String
  summary : String
  model : String
  updated_at : Nat
  source_review_count : Nat
  source_latest_review_at : Option Nat
  merge : Bool
deriving DecidableEq

/-- The JSON body of a successful response. `updated_at = none` models the
absence of the `updated_at` key (it is present only on the cache-hit path). -/
structure SummaryResponse where
  place_id : String
  summary : String
  source_review_count : Nat
  cached : Bool
  updated_at : Option Nat
deriving DecidableEq

/-- Outcome of one handler call: the 400 for a missing `place_id`, the 500
produced by the `except` block (carrying `str(e)`), or a 200 with a body. -/
inductive GetSummaryResult where
  | invalidInput
  | dependencyError (cause : String)
  | ok (r : SummaryResponse)
deriving DecidableEq

/-- The environment a single call runs against: the three external calls the
handler can make, plus the configured model name and the server-assigned value
that `firestore.SERVER_TIMESTAMP` resolves to. -/
structure Env where
  fetchReviews : Except String (List (Option ReviewDoc))
  readCache : Except String (Option CacheDoc)
  generate : String → Except String (Option String)
  summaryModel : String
  serverTime : Nat

/-- Log of every external interaction performed by one call. -/
structure Effects where
  fetchCalls : Nat
  cacheReads : Nat
  genPrompts : List String
  cacheWrites : List CacheWrite
deriving DecidableEq

/-- Python `str.strip()`: remove whitespace from both ends. -/
def pyStrip (s : String) : String :=
  ⟨(s.data.dropWhile Char.isWhitespace).rdropWhile Char.isWhitespace⟩

/-- One iteration of the review loop: update `latest_ts` from `created_at`
(`if ts and (latest_ts is None or ts > latest_ts)`), and append the trimmed
text to `written` when non-empty. -/
def corpusStep (acc : List String × Option Nat) (d : Option ReviewDoc) :
    List String × Option Nat :=
  (if pyStrip (((d.getD emptyReview).text).getD "") = "" then acc.1
   else acc.1 ++ [pyStrip (((d.getD emptyReview).text).getD "")],
   match (d.getD emptyReview).created_at with
   | none => acc.2
   | some ts =>
     match acc.2 with
     | none => some ts
     | some l => if ts > l then some ts else some l)

/-- The review loop of the handler: builds `written` (trimmed non-empty texts,
in fetched order) and `latest_ts` (running maximum of the timestamps). -/
def buildCorpus (docs : List (Option ReviewDoc)) : List String × Option Nat :=
  docs.foldl corpusStep ([], none)

/-- The fixed instruction preamble of the generation prompt. -/
def PROMPT_PREAMBLE : String :=
  "Summarize the accessibility feedback below in **2-3 concise sentences**.\n" ++
  "Use ONLY the provided review text.\n" ++
  "Focus on the most important recurring accessibility issues or positives.\n" ++
  "If there is disagreement, briefly mention it.\n" ++
  "Write in a neutral, factual tone suitable for a map app.\n" ++
  "Do NOT use bullet points.\n" ++
  "Keep it under 35 words.\n\n" ++
  "REVIEWS:\n"

/-- The full generation prompt: preamble plus the review texts joined by the
delimiter (the source's newline-dashes-newline `join`). -/
def mkPrompt (recent_texts : List String) : String :=
  PROMPT_PREAMBLE ++ String.intercalate "\n---\n" recent_texts

/-- The cache-validity test of the handler, as a Boolean: a cache snapshot
exists, its trimmed summary is non-empty, and its stored fingerprint equals
the freshly computed one. -/
def cacheValid (cs : Option CacheDoc) (count : Nat) (latest : Option Nat) : Bool :=
  match cs with
  | none => false
  | some cache =>
    (pyStrip (cache.summary.getD "") != "") &&
    (cache.source_review_count == some count) &&
    (cache.source_latest_review_at == latest)

/-- The `if cache_snap.exists` block: `some response` when the cache is valid
(the fast-path body), `none` otherwise. The response body echoes the trimmed
cached summary, `cache.get("source_review_count", source_review_count)` and
`cache.get("updated_at")`. -/
def cacheHit (place_id : String) (count : Nat) (latest : Option Nat) :
    Option CacheDoc → Option SummaryResponse
  | none => none
  | some cache =>
    let cache_summary := pyStrip (cache.summary.getD "")
    if cache_summary ≠ "" ∧ cache.source_review_count = some count ∧
        cache.source_latest_review_at = latest then
      some ⟨place_id, cache_summary, cache.source_review_count.getD count,
            true, cache.updated_at⟩
    else none

/-- The miss path (steps 3 and 4 of the handler): truncate to the first 20
corpus entries, build the prompt, invoke generation, trim the output
(`resp.output_text or ""` then `.strip()`), upsert the cache document with
`merge=True`, and answer with `cached: false`. A generation failure is caught
by the `except` block with no write performed. -/
def missPath (place_id : String) (written : List String) (latest : Option Nat)
    (env : Env) : GetSummaryResult × Effects :=
  let recent_texts := written.take 20
  let prompt := mkPrompt recent_texts
  match env.generate prompt with
  | .error e => (.dependencyError e, ⟨1, 1, [prompt], []⟩)
  | .ok output_text =>
    let summary_text := pyStrip (output_text.getD "")
    let w : CacheWrite :=
      ⟨"place_summaries", place_id, place_id, summary_text, env.summaryModel,
       env.serverTime, written.length, latest, true⟩
    (.ok ⟨place_id, summary_text, written.length, false, none⟩,
     ⟨1, 1, [prompt], [w]⟩)

/-- The handler body after a successful review query: build the corpus,
short-circuit on an empty one (before any cache read), otherwise read the
cache document and branch on validity. -/
def afterFetch (place_id : String) (docs : List (Option ReviewDoc)) (env : Env) :
    GetSummaryResult × Effects :=
  let written := (buildCorpus docs).1
  let latest_ts := (buildCorpus docs).2
  if written.length = 0 then
    (.ok ⟨place_id, "", 0, true, none⟩, ⟨1, 0, [], []⟩)
  else
    match env.readCache with
    | .error e => (.dependencyError e, ⟨1, 1, [], []⟩)
    | .ok cacheSnap =>
      match cacheHit place_id written.length latest_ts cacheSnap with
      | some r => (.ok r, ⟨1, 1, [], []⟩)
      | none => missPath place_id written latest_ts env

/-- The `/api/summary` handler. Strips the query parameter, rejects an empty
identifier with the 400 (`invalidInput`), then runs the fetch / corpus /
cache / generate pipeline; any dependency failure surfaces through the
`except` block as `dependencyError` with the cause. -/
def get_summary (place_id_raw : String) (env : Env) : GetSummaryResult × Effects :=
  let place_id := pyStrip place_id_raw
  if place_id = "" then
    (.invalidInput, ⟨0, 0, [], []⟩)
  else
    match env.fetchReviews with
    | .error e => (.dependencyError e, ⟨1, 0, [], []⟩)
    | .ok docs => afterFetch place_id docs env

/-- Applying one Firestore `set` to the current contents of the target
document: with `merge=True` the written fields are updated and every other
field of an existing document is preserved; without merge the document is
replaced whole. -/
def applyWrite (w : CacheWrite) (old : Option CacheDoc) : CacheDoc :=
  { place_id := some w.place_id
    summary := some w.summary
    model := some w.model
    updated_at := some w.updated_at
    source_review_count := some w.source_review_count
    source_latest_review_at := w.source_latest_review_at
    extra := if w.merge then (old.map CacheDoc.extra).getD [] else [] }

/-- Applying a sequence of writes, all targeting one fixed document. -/
def applyWritesTo (ws : List CacheWrite) (old : Option CacheDoc) : Option CacheDoc :=
  ws.foldl (fun acc w => some (applyWrite w acc)) old

/-- The whole Firestore state, as contents keyed by collection and document
id. Review documents live in collection `"reviews"`; cached summaries in
`"place_summaries"`. -/
def Store := String → String → Option CacheDoc

/-- Applying one write to the keyed store. -/
def applyWriteStore (s : Store) (w : CacheWrite) : Store :=
  fun coll id =>
    if coll = w.collection ∧ id = w.docId then some (applyWrite w (s coll id))
    else s coll id

/-- Applying a call's write log to the keyed store. -/
def applyWritesStore (s : Store) (ws : List CacheWrite) : Store :=
  ws.foldl applyWriteStore s

/-! ## Basic lemmas about `pyStrip` and the corpus fold -/

theorem dropWhile_rdropWhile_eq {α : Type} (p : α → Bool) (l : List α) :
    ((l.dropWhile p).rdropWhile p).dropWhile p = (l.dropWhile p).rdropWhile p := by
  rw [List.dropWhile_eq_self_iff]
  intro hl
  have ht : ((l.dropWhile p).reverse.takeWhile p) ++ ((l.dropWhile p).reverse.dropWhile p)
      = (l.dropWhile p).reverse := List.takeWhile_append_dropWhile ..
  have hA : l.dropWhile p
      = (l.dropWhile p).rdropWhile p ++ ((l.dropWhile p).reverse.takeWhile p).reverse := by
    conv_lhs => rw [← List.reverse_reverse (l.dropWhile p), ← ht]
    rw [List.reverse_append, List.rdropWhile]
  have hlA : 0 < (l.dropWhile p).length := by
    rw [hA, List.length_append]
    omega
  have hq : (List.rdropWhile p (List.dropWhile p l))[0]? = (List.dropWhile p l)[0]? := by
    conv_rhs => rw [hA]
    exact (List.getElem?_append_left hl).symm
  have h0 := List.dropWhile_get_zero_not p l hlA
  rw [List.get_eq_getElem] at h0 ⊢
  rw [List.getElem?_eq_getElem hl, List.getElem?_eq_getElem hlA] at hq
  rw [Option.some.inj hq]
  exact h0

/-- Python `.strip()` is idempotent. -/
theorem pyStrip_idem (s : String) : pyStrip (pyStrip s) = pyStrip s := by
  unfold pyStrip
  have : ((⟨(s.data.dropWhile Char.isWhitespace).rdropWhile Char.isWhitespace⟩ :
      String)).data = (s.data.dropWhile Char.isWhitespace).rdropWhile Char.isWhitespace := rfl
  rw [this, dropWhile_rdropWhile_eq, List.rdropWhile_idempotent]

/-- The trimmed text a review document contributes (empty counts as excluded). -/
def trimmedText (d : Option ReviewDoc) : String :=
  pyStrip (((d.getD emptyReview).text).getD "")

/-- The non-empty trimmed texts of the fetched documents, in fetched order. -/
def writtenOf (docs : List (Option ReviewDoc)) : List String :=
  (docs.map trimmedText).filter (· != "")

/-- Maximum of two optional timestamps, absent values ignored. -/
def optMax : Option Nat → Option Nat → Option Nat
  | none, b => b
  | some a, none => some a
  | some a, some b => some (max a b)

/-- The timestamps carried by the fetched documents. -/
def tsListOf (docs : List (Option ReviewDoc)) : List Nat :=
  docs.filterMap (fun d => (d.getD emptyReview).created_at)

/-- The maximum timestamp carried by any fetched document. -/
def latestOf : List (Option ReviewDoc) → Option Nat
  | [] => none
  | d :: ds => optMax ((d.getD emptyReview).created_at) (latestOf ds)

theorem optMax_none_right (a : Option Nat) : optMax a none = a := by
  cases a <;> rfl

theorem optMax_assoc (a b c : Option Nat) :
    optMax (optMax a b) c = optMax a (optMax b c) := by
  cases a <;> cases b <;> cases c <;> simp [optMax, Nat.max_assoc]

theorem corpusStep_eq (acc : List String × Option Nat) (d : Option ReviewDoc) :
    corpusStep acc d
      = (acc.1 ++ (if trimmedText d = "" then [] else [trimmedText d]),
         optMax acc.2 ((d.getD emptyReview).created_at)) := by
  unfold corpusStep trimmedText
  refine Prod.ext ?_ ?_
  · by_cases h : pyStrip (((d.getD emptyReview).text).getD "") = "" <;> simp [h]
  · cases hts : (d.getD emptyReview).created_at with
    | none => simp [optMax_none_right]
    | some ts =>
      cases hacc : acc.2 with
      | none => simp [optMax]
      | some l =>
        simp only [optMax]
        rcases Nat.lt_or_ge l ts with h | h
        · simp [Nat.max_eq_right (Nat.le_of_lt h), h]
        · have hn : ¬ (ts > l) := Nat.not_lt.mpr h
          simp [hn, Nat.max_eq_left h]

theorem writtenOf_cons (d : Option ReviewDoc) (ds : List (Option ReviewDoc)) :
    writtenOf (d :: ds)
      = (if trimmedText d = "" then [] else [trimmedText d]) ++ writtenOf ds := by
  unfold writtenOf
  rw [List.map_cons, List.filter_cons]
  by_cases h : trimmedText d = "" <;> simp [h]

theorem latestOf_cons (d : Option ReviewDoc) (ds : List (Option ReviewDoc)) :
    latestOf (d :: ds) = optMax ((d.getD emptyReview).created_at) (latestOf ds) := rfl

theorem corpus_fold (docs : List (Option ReviewDoc)) :
    ∀ (w : List String) (l : Option Nat),
      docs.foldl corpusStep (w, l) = (w ++ writtenOf docs, optMax l (latestOf docs)) := by
  induction docs with
  | nil => intro w l; simp [writtenOf, latestOf, optMax_none_right]
  | cons d ds ih =>
    intro w l
    rw [List.foldl_cons, corpusStep_eq, ih, writtenOf_cons, latestOf_cons, optMax_assoc,
      List.append_assoc]

/-- The review loop computes exactly the non-empty trimmed texts (in order)
and the maximum carried timestamp. -/
theorem buildCorpus_eq (docs : List (Option ReviewDoc)) :
    buildCorpus docs = (writtenOf docs, latestOf docs) := by
  unfold buildCorpus
  rw [corpus_fold]
  simp [optMax]

theorem tsListOf_cons_none {d : Option ReviewDoc} (ds : List (Option ReviewDoc))
    (h : (d.getD emptyReview).created_at = none) :
    tsListOf (d :: ds) = tsListOf ds := by
  unfold tsListOf
  rw [List.filterMap_cons, h]

theorem tsListOf_cons_some {d : Option ReviewDoc} (ds : List (Option ReviewDoc)) {t : Nat}
    (h : (d.getD emptyReview).created_at = some t) :
    tsListOf (d :: ds) = t :: tsListOf ds := by
  unfold tsListOf
  rw [List.filterMap_cons, h]

theorem latestOf_none_iff (docs : List (Option ReviewDoc)) :
    latestOf docs = none ↔ tsListOf docs = [] := by
  induction docs with
  | nil => simp [latestOf, tsListOf]
  | cons d ds ih =>
    rw [latestOf_cons]
    cases hts : (d.getD emptyReview).created_at with
    | none => rw [tsListOf_cons_none ds hts]; simpa [optMax] using ih
    | some ts =>
      rw [tsListOf_cons_some ds hts]
      cases hl : latestOf ds <;> simp [optMax]

/-- `latestOf` is the maximum of the carried timestamps. -/
theorem latestOf_eq_some_iff (docs : List (Option ReviewDoc)) :
    ∀ m : Nat, latestOf docs = some m ↔
      m ∈ tsListOf docs ∧ ∀ x ∈ tsListOf docs, x ≤ m := by
  induction docs with
  | nil => intro m; simp [latestOf, tsListOf]
  | cons d ds ih =>
    intro m
    rw [latestOf_cons]
    cases hts : (d.getD emptyReview).created_at with
    | none => rw [tsListOf_cons_none ds hts]; simpa [optMax] using ih m
    | some ts =>
      rw [tsListOf_cons_some ds hts]
      cases hl : latestOf ds with
      | none =>
        have hnil : tsListOf ds = [] := (latestOf_none_iff ds).mp hl
        rw [hnil, optMax_none_right]
        constructor
        · intro h
          obtain rfl := Option.some.inj h
          refine ⟨List.mem_cons_self _ _, ?_⟩
          intro x hx
          rcases List.mem_cons.mp hx with rfl | hx'
          · exact Nat.le_refl _
          · exact absurd hx' (List.not_mem_nil x)
        · rintro ⟨hm, _⟩
          rcases List.mem_cons.mp hm with rfl | hm'
          · rfl
          · exact absurd hm' (List.not_mem_nil m)
      | some k =>
        have hk := (ih k).mp hl
        rw [show optMax (some ts) (some k) = some (max ts k) from rfl]
        constructor
        · intro h
          obtain rfl := Option.some.inj h
          constructor
          · rcases Nat.le_total ts k with h' | h'
            · rw [Nat.max_eq_right h']
              exact List.mem_cons_of_mem _ hk.1
            · rw [Nat.max_eq_left h']
              exact List.mem_cons_self _ _
          · intro x hx
            rcases List.mem_cons.mp hx with heq | hx'
            · rw [heq]
              exact Nat.le_max_left ts k
            · exact Nat.le_trans (hk.2 x hx') (Nat.le_max_right ts k)
        · rintro ⟨hm, hall⟩
          have hts_le : ts ≤ m := hall ts (List.mem_cons_self _ _)
          have hk_le : k ≤ m := hall k (List.mem_cons_of_mem _ hk.1)
          have h1 : max ts k ≤ m := Nat.max_le.mpr ⟨hts_le, hk_le⟩
          have h2 : m ≤ max ts k := by
            rcases List.mem_cons.mp hm with rfl | hm'
            · exact Nat.le_max_left _ _
            · exact Nat.le_trans (hk.2 m hm') (Nat.le_max_right ts k)
          exact congrArg some (Nat.le_antisymm h1 h2)

/-! ## Branch equations for the handler -/

theorem get_summary_invalid (pid : String) (env : Env) (h : pyStrip pid = "") :
    get_summary pid env = (.invalidInput, ⟨0, 0, [], []⟩) := by
  simp [get_summary, h]

theorem get_summary_fetch_error (pid : String) (env : Env) (e : String)
    (hpid : pyStrip pid ≠ "") (hf : env.fetchReviews = .error e) :
    get_summary pid env = (.dependencyError e, ⟨1, 0, [], []⟩) := by
  simp [get_summary, hpid, hf]

theorem get_summary_fetch_ok (pid : String) (env : Env) (docs : List (Option ReviewDoc))
    (hpid : pyStrip pid ≠ "") (hf : env.fetchReviews = .ok docs) :
    get_summary pid env = afterFetch (pyStrip pid) docs env := by
  simp [get_summary, hpid, hf]

theorem afterFetch_empty (pid : String) (docs : List (Option ReviewDoc)) (env : Env)
    (hw : (buildCorpus docs).1 = []) :
    afterFetch pid docs env = (.ok ⟨pid, "", 0, true, none⟩, ⟨1, 0, [], []⟩) := by
  simp [afterFetch, hw]

theorem afterFetch_read_error (pid : String) (docs : List (Option ReviewDoc)) (env : Env)
    (e : String) (hw : (buildCorpus docs).1 ≠ []) (hr : env.readCache = .error e) :
    afterFetch pid docs env = (.dependencyError e, ⟨1, 1, [], []⟩) := by
  simp [afterFetch, List.length_eq_zero, hw, hr]

theorem afterFetch_hit (pid : String) (docs : List (Option ReviewDoc)) (env : Env)
    (cacheSnap : Option CacheDoc) (r : SummaryResponse)
    (hw : (buildCorpus docs).1 ≠ []) (hr : env.readCache = .ok cacheSnap)
    (hh : cacheHit pid (buildCorpus docs).1.length (buildCorpus docs).2 cacheSnap = some r) :
    afterFetch pid docs env = (.ok r, ⟨1, 1, [], []⟩) := by
  simp [afterFetch, List.length_eq_zero, hw, hr, hh]

theorem afterFetch_miss (pid : String) (docs : List (Option ReviewDoc)) (env : Env)
    (cacheSnap : Option CacheDoc)
    (hw : (buildCorpus docs).1 ≠ []) (hr : env.readCache = .ok cacheSnap)
    (hh : cacheHit pid (buildCorpus docs).1.length (buildCorpus docs).2 cacheSnap = none) :
    afterFetch pid docs env = missPath pid (buildCorpus docs).1 (buildCorpus docs).2 env := by
  simp [afterFetch, List.length_eq_zero, hw, hr, hh]

theorem missPath_gen_error (pid : String) (written : List String) (latest : Option Nat)
    (env : Env) (e : String)
    (hg : env.generate (mkPrompt (written.take 20)) = .error e) :
    missPath pid written latest env
      = (.dependencyError e, ⟨1, 1, [mkPrompt (written.take 20)], []⟩) := by
  simp [missPath, hg]

theorem missPath_gen_ok (pid : String) (written : List String) (latest : Option Nat)
    (env : Env) (t : Option String)
    (hg : env.generate (mkPrompt (written.take 20)) = .ok t) :
    missPath pid written latest env
      = (.ok ⟨pid, pyStrip (t.getD ""), written.length, false, none⟩,
         ⟨1, 1, [mkPrompt (written.take 20)],
          [⟨"place_summaries", pid, pid, pyStrip (t.getD ""), env.summaryModel,
            env.serverTime, written.length, latest, true⟩]⟩) := by
  simp [missPath, hg]

/-! ## The validity test versus the hit branch -/

theorem cacheValid_iff (cs : Option CacheDoc) (count : Nat) (latest : Option Nat) :
    cacheValid cs count latest = true ↔
      ∃ c, cs = some c ∧ pyStrip (c.summary.getD "") ≠ "" ∧
        c.source_review_count = some count ∧ c.source_latest_review_at = latest := by
  cases cs <;> simp [cacheValid, and_assoc]

theorem cacheHit_of_valid (pid : String) (count : Nat) (latest : Option Nat) (c : CacheDoc)
    (hv : cacheValid (some c) count latest = true) :
    cacheHit pid count latest (some c)
      = some ⟨pid, pyStrip (c.summary.getD ""), count, true, c.updated_at⟩ := by
  obtain ⟨c', hc', h1, h2, h3⟩ := (cacheValid_iff _ _ _).mp hv
  obtain rfl := Option.some.inj hc'
  simp [cacheHit, h1, h2, h3]

theorem cacheHit_none_iff (pid : String) (count : Nat) (latest : Option Nat)
    (cs : Option CacheDoc) :
    cacheHit pid count latest cs = none ↔ cacheValid cs count latest = false := by
  cases cs with
  | none => simp [cacheHit, cacheValid]
  | some c =>
    constructor
    · intro hn
      by_contra hne
      have hv : cacheValid (some c) count latest = true := by
        cases h : cacheValid (some c) count latest
        · exact absurd h hne
        · rfl
      rw [cacheHit_of_valid pid count latest c hv] at hn
      exact Option.noConfusion hn
    · intro hf
      have : ¬ (pyStrip (c.summary.getD "") ≠ "" ∧ c.source_review_count = some count ∧
          c.source_latest_review_at = latest) := by
        intro ⟨h1, h2, h3⟩
        have : cacheValid (some c) count latest = true :=
          (cacheValid_iff _ _ _).mpr ⟨c, rfl, h1, h2, h3⟩
        rw [this] at hf
        exact Bool.noConfusion hf
      simp [cacheHit, this]

/-! ## Shared consequences of the miss path -/

theorem miss_consequences (pid : String) (env : Env) (docs : List (Option ReviewDoc))
    (cs : Option CacheDoc)
    (hpid : pyStrip pid ≠ "") (hf : env.fetchReviews = .ok docs)
    (hw : (buildCorpus docs).1 ≠ []) (hr : env.readCache = .ok cs)
    (hv : cacheValid cs (buildCorpus docs).1.length (buildCorpus docs).2 = false) :
    (get_summary pid env).2.genPrompts = [mkPrompt ((buildCorpus docs).1.take 20)] ∧
    ∀ r, (get_summary pid env).1 = .ok r → r.cached = false := by
  rw [get_summary_fetch_ok pid env docs hpid hf,
      afterFetch_miss _ docs env cs hw hr ((cacheHit_none_iff _ _ _ _).mpr hv)]
  cases hg : env.generate (mkPrompt ((buildCorpus docs).1.take 20)) with
  | error e =>
    rw [missPath_gen_error _ _ _ env e hg]
    exact ⟨rfl, fun r h => by simp at h⟩
  | ok t =>
    rw [missPath_gen_ok _ _ _ env t hg]
    refine ⟨rfl, fun r h => ?_⟩
    obtain rfl := GetSummaryResult.ok.inj h
    rfl

/-! ## Claim C7 -/

/-- C7: for every entity identifier that is empty or whitespace-only (its
strip is the empty string), `get_summary` fails with the invalid-input error
immediately and with no side effects: no review fetch, no cache read, no
generation call and no cache write. -/
theorem C7_invalid_input (pid : String) (env : Env) (h : pyStrip pid = "") :
    get_summary pid env = (.invalidInput, ⟨0, 0, [], []⟩) :=
  get_summary_invalid pid env h

def envW7 : Env :=
  ⟨.ok [some ⟨some "ramp is broken", some 100⟩], .ok none,
   fun _ => .ok (some "fine"), "gpt-4o-mini", 3⟩

theorem C7_invalid_input_witness :
    pyStrip "   " = "" ∧ get_summary "   " envW7 = (.invalidInput, ⟨0, 0, [], []⟩) :=
  ⟨by decide, C7_invalid_input "   " envW7 (by decide)⟩

/-! ## Claim C2 -/

/-- C2: whenever the fetched reviews contain zero non-empty (after trimming)
texts, `get_summary` answers `summary = ""`, `source_review_count = 0`,
`cached = true`, and performs no generation call, no cache read and no cache
write (the review fetch itself has already happened). -/
theorem C2_empty_corpus (pid : String) (env : Env) (docs : List (Option ReviewDoc))
    (hpid : pyStrip pid ≠ "") (hf : env.fetchReviews = .ok docs)
    (hw : (buildCorpus docs).1 = []) :
    get_summary pid env = (.ok ⟨pyStrip pid, "", 0, true, none⟩, ⟨1, 0, [], []⟩) := by
  rw [get_summary_fetch_ok pid env docs hpid hf, afterFetch_empty _ docs env hw]

def envW2 : Env :=
  ⟨.ok [some ⟨some "   ", some 50⟩, some ⟨none, some 60⟩, none], .ok none,
   fun _ => .ok (some "fine"), "gpt-4o-mini", 3⟩

theorem C2_empty_corpus_witness :
    pyStrip "P2" ≠ "" ∧
    (buildCorpus [some ⟨some "   ", some 50⟩, some ⟨none, some 60⟩, none]).1 = [] ∧
    get_summary "P2" envW2 = (.ok ⟨"P2", "", 0, true, none⟩, ⟨1, 0, [], []⟩) :=
  ⟨by decide, by decide,
   C2_empty_corpus "P2" envW2 [some ⟨some "   ", some 50⟩, some ⟨none, some 60⟩, none]
     (by decide) rfl (by decide)⟩

/-! ## Claim C6 -/

/-- C6: any failure of the review-store fetch, the cache read, or the
generation call aborts the whole operation, surfaces as the dependency error
carrying the underlying cause, and performs no cache write. -/
theorem C6_failure_atomicity (pid : String) (env : Env) (e : String)
    (hpid : pyStrip pid ≠ "") :
    (env.fetchReviews = .error e →
       get_summary pid env = (.dependencyError e, ⟨1, 0, [], []⟩)) ∧
    (∀ docs, env.fetchReviews = .ok docs → (buildCorpus docs).1 ≠ [] →
       env.readCache = .error e →
       get_summary pid env = (.dependencyError e, ⟨1, 1, [], []⟩)) ∧
    (∀ docs cs, env.fetchReviews = .ok docs → (buildCorpus docs).1 ≠ [] →
       env.readCache = .ok cs →
       cacheValid cs (buildCorpus docs).1.length (buildCorpus docs).2 = false →
       env.generate (mkPrompt ((buildCorpus docs).1.take 20)) = .error e →
       get_summary pid env = (.dependencyError e,
         ⟨1, 1, [mkPrompt ((buildCorpus docs).1.take 20)], []⟩)) := by
  refine ⟨fun hf => get_summary_fetch_error pid env e hpid hf, ?_, ?_⟩
  · intro docs hf hw hr
    rw [get_summary_fetch_ok pid env docs hpid hf, afterFetch_read_error _ docs env e hw hr]
  · intro docs cs hf hw hr hv hg
    rw [get_summary_fetch_ok pid env docs hpid hf,
        afterFetch_miss _ docs env cs hw hr ((cacheHit_none_iff _ _ _ _).mpr hv),
        missPath_gen_error _ _ _ env e hg]

def envW6 : Env :=
  ⟨.error "store unreachable", .ok none, fun _ => .ok (some "fine"), "gpt-4o-mini", 3⟩

theorem C6_failure_atomicity_witness :
    pyStrip "P1" ≠ "" ∧
    get_summary "P1" envW6 = (.dependencyError "store unreachable", ⟨1, 0, [], []⟩) :=
  ⟨by decide, (C6_failure_atomicity "P1" envW6 "store unreachable" (by decide)).1 rfl⟩

/-! ## Claim C1 -/

/-- C1: with a non-empty corpus (and the fetch and cache read succeeding),
the call answers from the cache — `cached = true`, the (trimmed) cached
summary text and the cached `updated_at`, with no generation call — exactly
when a cached entry exists whose trimmed summary text is non-empty and whose
stored fingerprint (`source_review_count`, `source_latest_review_at`) equals
the freshly computed one; in every other case the generation service is
invoked and any successful result has `cached = false`. -/
theorem C1_cache_validity (pid : String) (env : Env) (docs : List (Option ReviewDoc))
    (cs : Option CacheDoc)
    (hpid : pyStrip pid ≠ "") (hf : env.fetchReviews = .ok docs)
    (hw : (buildCorpus docs).1 ≠ []) (hr : env.readCache = .ok cs) :
    (cacheValid cs (buildCorpus docs).1.length (buildCorpus docs).2 = true ↔
       ∃ c, cs = some c ∧
         get_summary pid env
           = (.ok ⟨pyStrip pid, pyStrip (c.summary.getD ""),
                   (buildCorpus docs).1.length, true, c.updated_at⟩,
              ⟨1, 1, [], []⟩)) ∧
    (cacheValid cs (buildCorpus docs).1.length (buildCorpus docs).2 = false →
       (get_summary pid env).2.genPrompts.length = 1 ∧
       ∀ r, (get_summary pid env).1 = .ok r → r.cached = false) := by
  constructor
  · constructor
    · intro hv
      obtain ⟨c, hc, h1, h2, h3⟩ := (cacheValid_iff _ _ _).mp hv
      subst hc
      refine ⟨c, rfl, ?_⟩
      rw [get_summary_fetch_ok pid env docs hpid hf,
          afterFetch_hit _ docs env (some c) _ hw hr (cacheHit_of_valid _ _ _ c hv)]
    · rintro ⟨c, rfl, hres⟩
      cases hv : cacheValid (some c) (buildCorpus docs).1.length (buildCorpus docs).2 with
      | true => rfl
      | false =>
        exfalso
        have hmiss := miss_consequences pid env docs (some c) hpid hf hw hr hv
        have := hmiss.2 _ (by rw [hres])
        simp at this
  · intro hv
    have hmiss := miss_consequences pid env docs cs hpid hf hw hr hv
    exact ⟨by rw [hmiss.1]; rfl, hmiss.2⟩

def cW1 : CacheDoc :=
  ⟨some "P1", some "Good access overall.", some "gpt-4o-mini", some 9, some 1, some 100, []⟩

def envW1 : Env :=
  ⟨.ok [some ⟨some "ramp is broken", some 100⟩], .ok (some cW1),
   fun _ => .ok (some "fine"), "gpt-4o-mini", 3⟩

theorem C1_cache_validity_witness :
    pyStrip "P1" ≠ "" ∧
    (buildCorpus [some ⟨some "ramp is broken", some 100⟩]).1 ≠ [] ∧
    cacheValid (some cW1) 1 (some 100) = true ∧
    get_summary "P1" envW1
      = (.ok ⟨"P1", "Good access overall.", 1, true, some 9⟩, ⟨1, 1, [], []⟩) := by
  refine ⟨by decide, by decide, by decide, ?_⟩
  obtain ⟨c, hc, hres⟩ :=
    ((C1_cache_validity "P1" envW1 [some ⟨some "ramp is broken", some 100⟩] (some cW1)
        (by decide) rfl (by decide) rfl).1).mp (by decide)
  obtain rfl := Option.some.inj hc
  exact hres

/-! ## Claim C9 -/

/-- C9: the validity test trims the stored summary before the non-emptiness
check, so a cached entry whose summary is empty or whitespace-only is never
valid (for any fingerprint); with a non-empty corpus the call then takes the
miss path: the generation service is invoked and any successful result has
`cached = false`. -/
theorem C9_whitespace_cache_invalid (pid : String) (env : Env)
    (docs : List (Option ReviewDoc)) (c : CacheDoc)
    (hpid : pyStrip pid ≠ "") (hf : env.fetchReviews = .ok docs)
    (hw : (buildCorpus docs).1 ≠ []) (hr : env.readCache = .ok (some c))
    (hsum : pyStrip (c.summary.getD "") = "") :
    (∀ (count : Nat) (latest : Option Nat), cacheValid (some c) count latest = false) ∧
    (get_summary pid env).2.genPrompts.length = 1 ∧
    ∀ r, (get_summary pid env).1 = .ok r → r.cached = false := by
  have hinv : ∀ (count : Nat) (latest : Option Nat),
      cacheValid (some c) count latest = false := by
    intro count latest
    simp [cacheValid, hsum]
  have hmiss := miss_consequences pid env docs (some c) hpid hf hw hr (hinv _ _)
  exact ⟨hinv, by rw [hmiss.1]; rfl, hmiss.2⟩

def cW9 : CacheDoc :=
  ⟨some "P1", some "   ", some "gpt-4o-mini", some 9, some 1, some 100, []⟩

def envW9 : Env :=
  ⟨.ok [some ⟨some "ramp is broken", some 100⟩], .ok (some cW9),
   fun _ => .ok (some "fine"), "gpt-4o-mini", 3⟩

theorem C9_whitespace_cache_invalid_witness :
    pyStrip (cW9.summary.getD "") = "" ∧
    cacheValid (some cW9) 1 (some 100) = false ∧
    (get_summary "P1" envW9).2.genPrompts.length = 1 := by
  have h := C9_whitespace_cache_invalid "P1" envW9 [some ⟨some "ramp is broken", some 100⟩]
    cW9 (by decide) rfl (by decide) rfl (by decide)
  exact ⟨by decide, h.1 1 (some 100), h.2.1⟩

/-! ## Claim C5 -/

/-- C5: on the miss path, the single prompt passed to the generation call is
exactly the fixed preamble followed by the first 20 corpus entries (the 20
most recent, in the fetched descending order) joined by the delimiter —
entries beyond the 20th do not contribute to the prompt text — and with more
than 20 corpus entries exactly 20 are included. -/
theorem C5_truncation (pid : String) (env : Env) (docs : List (Option ReviewDoc))
    (cs : Option CacheDoc)
    (hpid : pyStrip pid ≠ "") (hf : env.fetchReviews = .ok docs)
    (hw : (buildCorpus docs).1 ≠ []) (hr : env.readCache = .ok cs)
    (hv : cacheValid cs (buildCorpus docs).1.length (buildCorpus docs).2 = false) :
    (get_summary pid env).2.genPrompts
      = [PROMPT_PREAMBLE ++ String.intercalate "\n---\n" ((buildCorpus docs).1.take 20)] ∧
    (20 < (buildCorpus docs).1.length → ((buildCorpus docs).1.take 20).length = 20) := by
  refine ⟨?_, fun h => ?_⟩
  · rw [(miss_consequences pid env docs cs hpid hf hw hr hv).1]
    rfl
  · rw [List.length_take]
    omega

def docsW5 : List (Option ReviewDoc) := List.replicate 21 (some ⟨some "ok", some 5⟩)

def envW5 : Env := ⟨.ok docsW5, .ok none, fun _ => .ok (some "fine"), "gpt-4o-mini", 3⟩

theorem C5_truncation_witness :
    (buildCorpus docsW5).1.length = 21 ∧
    (get_summary "P1" envW5).2.genPrompts
      = [PROMPT_PREAMBLE ++ String.intercalate "\n---\n" ((buildCorpus docsW5).1.take 20)] ∧
    ((buildCorpus docsW5).1.take 20).length = 20 := by
  have h := C5_truncation "P1" envW5 docsW5 none (by decide) rfl (by decide) rfl (by decide)
  exact ⟨by decide, h.1, h.2 (by decide)⟩

/-! ## Claim C4 -/

/-- C4: the fingerprint's `latest_at` is the maximum creation timestamp over
all fetched reviews that carry one (empty-text reviews included), while its
`count` counts only the reviews with non-empty trimmed text; consequently a
new empty-text review carrying a timestamp later than every current one
changes the fingerprint, so a previously valid cache entry fails the validity
test on the next read and the generation service is invoked again. -/
theorem C4_fingerprint_scope (docs : List (Option ReviewDoc)) :
    (∀ m : Nat, (buildCorpus docs).2 = some m ↔
        m ∈ tsListOf docs ∧ ∀ x ∈ tsListOf docs, x ≤ m) ∧
    ((buildCorpus docs).1.length = (docs.filter (fun d => trimmedText d != "")).length) ∧
    (∀ (t : Nat) (d0 : Option ReviewDoc) (c : CacheDoc) (pid : String) (env : Env),
       trimmedText d0 = "" → (d0.getD emptyReview).created_at = some t →
       (∀ x ∈ tsListOf docs, x < t) →
       pyStrip pid ≠ "" → env.fetchReviews = .ok (d0 :: docs) →
       (buildCorpus docs).1 ≠ [] →
       env.readCache = .ok (some c) →
       cacheValid (some c) (buildCorpus docs).1.length (buildCorpus docs).2 = true →
       (get_summary pid env).2.genPrompts.length = 1 ∧
       ∀ r, (get_summary pid env).1 = .ok r → r.cached = false) := by
  refine ⟨?_, ?_, ?_⟩
  · intro m
    rw [buildCorpus_eq]
    exact latestOf_eq_some_iff docs m
  · rw [buildCorpus_eq]
    unfold writtenOf
    rw [List.filter_map, List.length_map]
    rfl
  · intro t d0 c pid env htxt hts hlt hpid hf hw hr hv
    -- the fresh corpus of the extended fetch
    have hw' : (buildCorpus (d0 :: docs)).1 = (buildCorpus docs).1 := by
      rw [buildCorpus_eq, buildCorpus_eq, writtenOf_cons, htxt]
      simp
    have hl' : (buildCorpus (d0 :: docs)).2 = some t := by
      rw [buildCorpus_eq, latestOf_cons, hts]
      cases hl : latestOf docs with
      | none => rfl
      | some m =>
        have hm := ((latestOf_eq_some_iff docs m).mp hl).1
        have : m < t := hlt m hm
        rw [show optMax (some t) (some m) = some (max t m) from rfl,
            Nat.max_eq_left (Nat.le_of_lt this)]
    -- the previously valid entry fails the new validity test
    have hnv : cacheValid (some c)
        (buildCorpus (d0 :: docs)).1.length (buildCorpus (d0 :: docs)).2 = false := by
      obtain ⟨c', hc', _, _, h3⟩ := (cacheValid_iff _ _ _).mp hv
      obtain rfl := Option.some.inj hc'
      have hne : c.source_latest_review_at ≠ (buildCorpus (d0 :: docs)).2 := by
        rw [hl', h3, buildCorpus_eq]
        cases hlds : latestOf docs with
        | none => exact fun hcon => Option.noConfusion hcon
        | some m =>
          have hm := ((latestOf_eq_some_iff docs m).mp hlds).1
          have hmt : m < t := hlt m hm
          intro hcon
          obtain rfl := Option.some.inj hcon
          exact Nat.lt_irrefl _ hmt
      cases hcv : cacheValid (some c)
          (buildCorpus (d0 :: docs)).1.length (buildCorpus (d0 :: docs)).2 with
      | false => rfl
      | true =>
        obtain ⟨c', hc', _, _, h3'⟩ := (cacheValid_iff _ _ _).mp hcv
        obtain rfl := Option.some.inj hc'
        exact absurd h3' hne
    have hwne : (buildCorpus (d0 :: docs)).1 ≠ [] := by
      rw [hw']
      exact hw
    have hmiss := miss_consequences pid env (d0 :: docs) (some c) hpid hf hwne hr hnv
    exact ⟨by rw [hmiss.1]; rfl, hmiss.2⟩

def docsW4 : List (Option ReviewDoc) := [some ⟨some "ramp is broken", some 100⟩]

def cW4 : CacheDoc :=
  ⟨some "P1", some "Good access overall.", some "gpt-4o-mini", some 9, some 1, some 100, []⟩

def envW4 : Env :=
  ⟨.ok (some ⟨some "", some 200⟩ :: docsW4), .ok (some cW4),
   fun _ => .ok (some "fine"), "gpt-4o-mini", 3⟩

theorem C4_fingerprint_scope_witness :
    (buildCorpus (some ⟨some "", some 200⟩ :: docsW4)).2 = some 200 ∧
    cacheValid (some cW4) (buildCorpus docsW4).1.length (buildCorpus docsW4).2 = true ∧
    (get_summary "P1" envW4).2.genPrompts.length = 1 := by
  refine ⟨?_, by decide, ?_⟩
  · exact ((C4_fingerprint_scope (some ⟨some "", some 200⟩ :: docsW4)).1 200).mpr (by decide)
  · exact ((C4_fingerprint_scope docsW4).2.2 200 (some ⟨some "", some 200⟩) cW4 "P1" envW4
      (by decide) rfl (by decide) (by decide) rfl (by decide) rfl (by decide)).1

/-! ## Claim C10 -/

/-- C10: corpus construction is total over malformed review documents — a
document that deserializes to nothing behaves exactly like an empty record, a
missing/null text field contributes nothing to the corpus (hence not to
`count`), and a missing/null creation timestamp is excluded from the
`latest_at` maximum. (Totality itself is by construction: `buildCorpus` and
`get_summary` are total functions.) -/
theorem C10_malformed_reviews_total (ds : List (Option ReviewDoc)) (t : String)
    (ts : Option Nat) :
    buildCorpus (none :: ds) = buildCorpus (some ⟨none, none⟩ :: ds) ∧
    (buildCorpus (some ⟨none, ts⟩ :: ds)).1 = (buildCorpus ds).1 ∧
    (buildCorpus (some ⟨some t, none⟩ :: ds)).2 = (buildCorpus ds).2 := by
  refine ⟨rfl, ?_, ?_⟩
  · rw [buildCorpus_eq, buildCorpus_eq, writtenOf_cons]
    have h : trimmedText (some ⟨none, ts⟩) = "" := rfl
    rw [h]
    simp
  · rw [buildCorpus_eq, buildCorpus_eq, latestOf_cons]
    rfl

/-! ## Claim C8 -/

theorem cacheWrites_cases (pid : String) (env : Env) :
    (get_summary pid env).2.cacheWrites = [] ∨
    ∃ docs t, env.fetchReviews = .ok docs ∧
      env.generate (mkPrompt ((buildCorpus docs).1.take 20)) = .ok t ∧
      (get_summary pid env).2.cacheWrites
        = [⟨"place_summaries", pyStrip pid, pyStrip pid, pyStrip (t.getD ""),
            env.summaryModel, env.serverTime, (buildCorpus docs).1.length,
            (buildCorpus docs).2, true⟩] := by
  by_cases hpid : pyStrip pid = ""
  · left
    rw [get_summary_invalid pid env hpid]
  · cases hf : env.fetchReviews with
    | error e =>
      left
      rw [get_summary_fetch_error pid env e hpid hf]
    | ok docs =>
      by_cases hw : (buildCorpus docs).1 = []
      · left
        rw [get_summary_fetch_ok pid env docs hpid hf, afterFetch_empty _ docs env hw]
      · cases hr : env.readCache with
        | error e =>
          left
          rw [get_summary_fetch_ok pid env docs hpid hf,
              afterFetch_read_error _ docs env e hw hr]
        | ok cs =>
          cases hh : cacheHit (pyStrip pid) (buildCorpus docs).1.length
              (buildCorpus docs).2 cs with
          | some r =>
            left
            rw [get_summary_fetch_ok pid env docs hpid hf,
                afterFetch_hit _ docs env cs r hw hr hh]
          | none =>
            cases hg : env.generate (mkPrompt ((buildCorpus docs).1.take 20)) with
            | error e =>
              left
              rw [get_summary_fetch_ok pid env docs hpid hf,
                  afterFetch_miss _ docs env cs hw hr hh,
                  missPath_gen_error _ _ _ env e hg]
            | ok t =>
              right
              refine ⟨docs, t, rfl, hg, ?_⟩
              rw [get_summary_fetch_ok pid env docs hpid hf,
                  afterFetch_miss _ docs env cs hw hr hh,
                  missPath_gen_ok _ _ _ env t hg]

/-- C8: in every call the only store mutation is at most one merge-upsert of
the cached-summary document of the supplied (stripped) entity identifier:
every logged write targets collection `"place_summaries"` at that id with
`merge = true`; applying the call's writes leaves every other document of the
store (in particular every review document and every other entity's cache)
unchanged; and the merge preserves the fields of an existing document that
the write does not mention. -/
theorem C8_frame (pid : String) (env : Env) :
    (get_summary pid env).2.cacheWrites.length ≤ 1 ∧
    (∀ w ∈ (get_summary pid env).2.cacheWrites,
       w.collection = "place_summaries" ∧ w.docId = pyStrip pid ∧ w.merge = true) ∧
    (∀ (s : Store) (coll id : String),
       ¬(coll = "place_summaries" ∧ id = pyStrip pid) →
       applyWritesStore s (get_summary pid env).2.cacheWrites coll id = s coll id) ∧
    (∀ w ∈ (get_summary pid env).2.cacheWrites, ∀ old : CacheDoc,
       (applyWrite w (some old)).extra = old.extra) := by
  rcases cacheWrites_cases pid env with h | ⟨docs, t, _, _, h⟩ <;> rw [h]
  · refine ⟨by simp, by simp, ?_, by simp⟩
    intro s coll id _
    rfl
  · refine ⟨by simp, ?_, ?_, ?_⟩
    · intro w hw
      rw [List.mem_singleton] at hw
      subst hw
      exact ⟨rfl, rfl, rfl⟩
    · intro s coll id hne
      show applyWriteStore s _ coll id = s coll id
      unfold applyWriteStore
      rw [if_neg hne]
    · intro w hw old
      rw [List.mem_singleton] at hw
      subst hw
      rfl

def envW8 : Env :=
  ⟨.ok [some ⟨some "ramp is broken", some 100⟩], .ok none,
   fun _ => .ok (some "fine"), "gpt-4o-mini", 3⟩

def storeW8 : Store := fun _ _ => none

theorem C8_frame_witness :
    ¬("reviews" = "place_summaries" ∧ "r1" = pyStrip "P1") ∧
    applyWritesStore storeW8 (get_summary "P1" envW8).2.cacheWrites "reviews" "r1"
      = storeW8 "reviews" "r1" :=
  ⟨by decide, (C8_frame "P1" envW8).2.2.1 storeW8 "reviews" "r1" (by decide)⟩

/-! ## Claim C3 -/

def docsC3 : List (Option ReviewDoc) := [some ⟨some "ramp is broken", some 100⟩]

/-- First-call environment in which the generation service returns
whitespace-only text. -/
def envC3 : Env :=
  ⟨.ok docsC3, .ok none, fun _ => .ok (some "   "), "gpt-4o-mini", 7⟩

/-- Second-call environment: same corpus, cache state produced by the first
call's write. -/
def envC3b : Env :=
  { envC3 with readCache := .ok (applyWritesTo (get_summary "P1" envC3).2.cacheWrites none) }

/-- C3 counterexample: with a fixed corpus across two consecutive calls, if
the generation service returns whitespace-only text, the first call caches an
empty summary; the cached entry then fails the non-empty-summary half of the
validity test, so the second call answers `cached = false` (not `true`) and
the generation service is invoked twice in total (not at most once),
refuting the claim as stated. -/
theorem C3_idempotence_counterexample :
    (get_summary "P1" envC3).1 = .ok ⟨"P1", "", 1, false, none⟩ ∧
    (get_summary "P1" envC3b).1 = .ok ⟨"P1", "", 1, false, none⟩ ∧
    (get_summary "P1" envC3).2.genPrompts.length
      + (get_summary "P1" envC3b).2.genPrompts.length = 2 := by
  refine ⟨?_, ?_, ?_⟩ <;> decide

/-- C3 (amended): with the corpus fixed between two consecutive calls (same
count and same latest timestamp) and the second call reading the cache state
left by the first, if the first call succeeded and — unless its corpus was
empty — produced a non-empty summary text (i.e. the generation call did not
return empty/whitespace-only text), then the second call returns
`cached = true` with exactly the summary text produced by the first call, and
the generation service is invoked at most once in total across the two
calls. -/
theorem C3_idempotence_amended (pid : String) (env1 env2 : Env)
    (docs1 docs2 : List (Option ReviewDoc)) (cs : Option CacheDoc) (r1 : SummaryResponse)
    (hpid : pyStrip pid ≠ "")
    (hf1 : env1.fetchReviews = .ok docs1) (hf2 : env2.fetchReviews = .ok docs2)
    (hcount : (buildCorpus docs2).1.length = (buildCorpus docs1).1.length)
    (hlatest : (buildCorpus docs2).2 = (buildCorpus docs1).2)
    (hc1 : env1.readCache = .ok cs)
    (hc2 : env2.readCache = .ok (applyWritesTo (get_summary pid env1).2.cacheWrites cs))
    (hr1 : (get_summary pid env1).1 = .ok r1)
    (hne : r1.source_review_count = 0 ∨ r1.summary ≠ "") :
    ∃ r2, (get_summary pid env2).1 = .ok r2 ∧ r2.cached = true ∧
      r2.summary = r1.summary ∧
      (get_summary pid env1).2.genPrompts.length
        + (get_summary pid env2).2.genPrompts.length ≤ 1 := by
  have hfo1 := get_summary_fetch_ok pid env1 docs1 hpid hf1
  by_cases hw1 : (buildCorpus docs1).1 = []
  · -- empty corpus: both calls short-circuit
    have h1 : get_summary pid env1
        = (.ok ⟨pyStrip pid, "", 0, true, none⟩, ⟨1, 0, [], []⟩) := by
      rw [hfo1, afterFetch_empty _ docs1 env1 hw1]
    have hw2 : (buildCorpus docs2).1 = [] := by
      apply List.length_eq_zero.mp
      rw [hcount, hw1]
      rfl
    have h2 : get_summary pid env2
        = (.ok ⟨pyStrip pid, "", 0, true, none⟩, ⟨1, 0, [], []⟩) := by
      rw [get_summary_fetch_ok pid env2 docs2 hpid hf2, afterFetch_empty _ docs2 env2 hw2]
    rw [h1] at hr1
    obtain rfl := GetSummaryResult.ok.inj hr1
    refine ⟨⟨pyStrip pid, "", 0, true, none⟩, by rw [h2], rfl, rfl, ?_⟩
    rw [h1, h2]
    simp
  · have hw2 : (buildCorpus docs2).1 ≠ [] := by
      intro h
      apply hw1
      apply List.length_eq_zero.mp
      rw [← hcount, h]
      rfl
    cases hh : cacheHit (pyStrip pid) (buildCorpus docs1).1.length (buildCorpus docs1).2 cs with
    | some r =>
      -- first call is a hit; no write, second call hits the same entry
      have hv : cacheValid cs (buildCorpus docs1).1.length (buildCorpus docs1).2 = true := by
        cases hcv : cacheValid cs (buildCorpus docs1).1.length (buildCorpus docs1).2 with
        | true => rfl
        | false =>
          rw [(cacheHit_none_iff (pyStrip pid) _ _ cs).mpr hcv] at hh
          exact Option.noConfusion hh
      obtain ⟨c, hc, _, _, _⟩ := (cacheValid_iff _ _ _).mp hv
      subst hc
      rw [cacheHit_of_valid (pyStrip pid) _ _ c hv] at hh
      obtain rfl := Option.some.inj hh
      have h1 : get_summary pid env1
          = (.ok ⟨pyStrip pid, pyStrip (c.summary.getD ""),
                  (buildCorpus docs1).1.length, true, c.updated_at⟩, ⟨1, 1, [], []⟩) := by
        rw [hfo1, afterFetch_hit _ docs1 env1 (some c) _ hw1 hc1
             (cacheHit_of_valid (pyStrip pid) _ _ c hv)]
      have hwr : (get_summary pid env1).2.cacheWrites = [] := by rw [h1]
      rw [hwr] at hc2
      have hv2 : cacheValid (some c)
          (buildCorpus docs2).1.length (buildCorpus docs2).2 = true := by
        rw [hcount, hlatest]
        exact hv
      have h2 : get_summary pid env2
          = (.ok ⟨pyStrip pid, pyStrip (c.summary.getD ""),
                  (buildCorpus docs2).1.length, true, c.updated_at⟩, ⟨1, 1, [], []⟩) := by
        rw [get_summary_fetch_ok pid env2 docs2 hpid hf2,
            afterFetch_hit _ docs2 env2 (some c) _ hw2 hc2
              (cacheHit_of_valid (pyStrip pid) _ _ c hv2)]
      rw [h1] at hr1
      obtain rfl := GetSummaryResult.ok.inj hr1
      refine ⟨⟨pyStrip pid, pyStrip (c.summary.getD ""),
        (buildCorpus docs2).1.length, true, c.updated_at⟩, by rw [h2], rfl, rfl, ?_⟩
      rw [h1, h2]
      simp
    | none =>
      -- first call is a miss
      have hv1 : cacheValid cs (buildCorpus docs1).1.length (buildCorpus docs1).2 = false :=
        (cacheHit_none_iff (pyStrip pid) _ _ cs).mp hh
      cases hg : env1.generate (mkPrompt ((buildCorpus docs1).1.take 20)) with
      | error e =>
        exfalso
        have h1 : get_summary pid env1
            = (.dependencyError e,
               ⟨1, 1, [mkPrompt ((buildCorpus docs1).1.take 20)], []⟩) := by
          rw [hfo1, afterFetch_miss _ docs1 env1 cs hw1 hc1 hh,
              missPath_gen_error _ _ _ env1 e hg]
        rw [h1] at hr1
        exact GetSummaryResult.noConfusion hr1
      | ok t =>
        have h1 : get_summary pid env1
            = (.ok ⟨pyStrip pid, pyStrip (t.getD ""),
                    (buildCorpus docs1).1.length, false, none⟩,
               ⟨1, 1, [mkPrompt ((buildCorpus docs1).1.take 20)],
                [⟨"place_summaries", pyStrip pid, pyStrip pid, pyStrip (t.getD ""),
                  env1.summaryModel, env1.serverTime, (buildCorpus docs1).1.length,
                  (buildCorpus docs1).2, true⟩]⟩) := by
          rw [hfo1, afterFetch_miss _ docs1 env1 cs hw1 hc1 hh,
              missPath_gen_ok _ _ _ env1 t hg]
        rw [h1] at hr1
        obtain rfl := GetSummaryResult.ok.inj hr1
        have hsne : pyStrip (t.getD "") ≠ "" := by
          rcases hne with h0 | hs
          · exact absurd (List.length_eq_zero.mp h0) hw1
          · exact hs
        have hwr : (get_summary pid env1).2.cacheWrites
            = [⟨"place_summaries", pyStrip pid, pyStrip pid, pyStrip (t.getD ""),
                env1.summaryModel, env1.serverTime, (buildCorpus docs1).1.length,
                (buildCorpus docs1).2, true⟩] := by rw [h1]
        rw [hwr] at hc2
        have hv2 : cacheValid
            (applyWritesTo
              [⟨"place_summaries", pyStrip pid, pyStrip pid, pyStrip (t.getD ""),
                env1.summaryModel, env1.serverTime, (buildCorpus docs1).1.length,
                (buildCorpus docs1).2, true⟩] cs)
            (buildCorpus docs2).1.length (buildCorpus docs2).2 = true := by
          apply (cacheValid_iff _ _ _).mpr
          refine ⟨_, rfl, ?_, ?_, ?_⟩
          · show pyStrip (pyStrip (t.getD "")) ≠ ""
            rw [pyStrip_idem]
            exact hsne
          · show some ((buildCorpus docs1).1.length) = some ((buildCorpus docs2).1.length)
            rw [hcount]
          · show (buildCorpus docs1).2 = (buildCorpus docs2).2
            rw [hlatest]
        obtain ⟨c2, hc2eq, _, _, _⟩ := (cacheValid_iff _ _ _).mp hv2
        rw [hc2eq] at hc2 hv2
        have h2 : get_summary pid env2
            = (.ok ⟨pyStrip pid, pyStrip (c2.summary.getD ""),
                    (buildCorpus docs2).1.length, true, c2.updated_at⟩, ⟨1, 1, [], []⟩) := by
          rw [get_summary_fetch_ok pid env2 docs2 hpid hf2,
              afterFetch_hit _ docs2 env2 (some c2) _ hw2 hc2
                (cacheHit_of_valid (pyStrip pid) _ _ c2 hv2)]
        refine ⟨_, by rw [h2], rfl, ?_, ?_⟩
        · show pyStrip (c2.summary.getD "") = pyStrip (t.getD "")
          have hcsum : c2.summary = some (pyStrip (t.getD "")) := by
            have : (applyWritesTo
                [⟨"place_summaries", pyStrip pid, pyStrip pid, pyStrip (t.getD ""),
                  env1.summaryModel, env1.serverTime, (buildCorpus docs1).1.length,
                  (buildCorpus docs1).2, true⟩] cs) = some c2 := hc2eq
            have h' := congrArg (fun o => (o.getD (applyWrite
                ⟨"place_summaries", pyStrip pid, pyStrip pid, pyStrip (t.getD ""),
                  env1.summaryModel, env1.serverTime, (buildCorpus docs1).1.length,
                  (buildCorpus docs1).2, true⟩ cs)).summary) this
            exact h'.symm
          rw [hcsum]
          show pyStrip (pyStrip (t.getD "")) = pyStrip (t.getD "")
          exact pyStrip_idem _
        · rw [h1, h2]
          simp

def envC3w : Env :=
  ⟨.ok docsC3, .ok none, fun _ => .ok (some " Good access overall. "), "gpt-4o-mini", 7⟩

def envC3w2 : Env :=
  { envC3w with
    readCache := .ok (applyWritesTo (get_summary "P1" envC3w).2.cacheWrites none) }

theorem C3_idempotence_amended_witness :
    ∃ r2, (get_summary "P1" envC3w2).1 = .ok r2 ∧ r2.cached = true ∧
      r2.summary = "Good access overall." ∧
      (get_summary "P1" envC3w).2.genPrompts.length
        + (get_summary "P1" envC3w2).2.genPrompts.length ≤ 1 := by
  obtain ⟨r2, h1, h2, h3, h4⟩ := C3_idempotence_amended "P1" envC3w envC3w2 docsC3 docsC3
    none ⟨"P1", "Good access overall.", 1, false, none⟩ (by decide) rfl rfl rfl rfl rfl rfl
    (by decide) (by decide)
  exact ⟨r2, h1, h2, h3, h4⟩
